import Mathlib

/-!
Shallow embedding of the tundokusupa backend (src/backend/main.go) together
with the database schema (users/books tables).  HTTP handlers become pure
functions: the JSON-decoded request body is an `Option` (decode failure is
`none`), and each outbound store or messaging call that can fail receives an
explicit error oracle (`Option String` for a single call, `Book → Bool` etc.
for calls made inside the sweep loop).  The store is a pair of lists of rows;
store reads filter those lists, store writes map or filter them, exactly
mirroring the supabase `Eq` / `In` / `Lt` query builders used by the Go code.
Timestamps are naturals (`deadline < now` mirrors `Lt("deadline", now)`).
-/

namespace Tundoku

/-- An HTTP response: status code and body text, as written by the Go
handlers via `http.Error` / `json.NewEncoder` (for JSON bodies we record the
`message` string that is encoded). -/
structure HttpResponse where
  status : Nat
  body : String
deriving Repr, DecidableEq

/-- A row of the `users` table (id, display_name, line_user_id). -/
structure User where
  id : String
  displayName : String
  lineUserId : String
deriving Repr, DecidableEq

/-- A row of the `books` table, matching the Go `Book` struct and the
`books` schema. -/
structure Book where
  bookId : String
  userId : String
  title : String
  author : String
  deadline : Nat
  status : String
  insultLevel : Int
  createdAt : Nat
  updatedAt : Nat
deriving Repr, DecidableEq

/-- The body of `POST /api/auth/line` (Go `LineAuthRequest`). -/
structure LineAuthRequest where
  lineAccessToken : String
  lineUserID : String
deriving Repr, DecidableEq

/-- The body of `DELETE /api/books` (anonymous struct in `handleDeleteBook`). -/
structure DeleteBookRequest where
  bookId : String
  userId : String
deriving Repr, DecidableEq

/-- The body of `POST /api/books/complete` (anonymous struct in
`handleCompleteBook`); it carries a book id and nothing else. -/
structure CompleteBookRequest where
  bookId : String
deriving Repr, DecidableEq

/-- `handleLineAuth`: query `users` by `line_user_id`; on zero rows insert a
new user (`display_name` is the constant "LINE User", the id is generated by
the store and passed in as `newId`).  `queryErr` / `insertErr` model the two
fallible store calls. -/
def handleLineAuth (req : Option LineAuthRequest) (queryErr : Option String)
    (insertErr : Option String) (newId : String) (users : List User) :
    HttpResponse × List User :=
  match req with
  | none => ({ status := 400, body := "Invalid request" }, users)
  | some r =>
    match queryErr with
    | some e => ({ status := 500, body := "failed to query user: " ++ e }, users)
    | none =>
      let results := users.filter (fun u => u.lineUserId == r.lineUserID)
      if results.length == 0 then
        match insertErr with
        | some e => ({ status := 500, body := "failed to create user: " ++ e }, users)
        | none =>
          ({ status := 200, body := "Auth pre-check successful" },
           users ++ [{ id := newId, displayName := "LINE User",
                       lineUserId := r.lineUserID }])
      else
        ({ status := 200, body := "Auth pre-check successful" }, users)

/-- `handleGetBooks`: requires a non-empty `userId` query parameter, then
selects the user's books.  Returns (response, rows fetched, whether the
store query was attempted). -/
def handleGetBooks (userId : String) (queryErr : Option String)
    (books : List Book) : HttpResponse × List Book × Bool :=
  if userId == "" then
    ({ status := 400, body := "userId required" }, [], false)
  else
    match queryErr with
    | some e => ({ status := 500, body := "failed to fetch books: " ++ e }, [], true)
    | none =>
      ({ status := 200, body := "" }, books.filter (fun b => b.userId == userId), true)

/-- `handleRegisterBook`: decode, reject empty title/author/user id, default
status to "unread", insert.  The store generates the new row's id (`newId`)
and its timestamp defaults (`now`).  Returns (response, new books table,
whether the store insert was attempted). -/
def handleRegisterBook (body : Option Book) (insertErr : Option String)
    (newId : String) (now : Nat) (books : List Book) :
    HttpResponse × List Book × Bool :=
  match body with
  | none => ({ status := 400, body := "Invalid request" }, books, false)
  | some book =>
    if book.title == "" || book.author == "" || book.userId == "" then
      ({ status := 400, body := "Missing required fields" }, books, false)
    else
      let st := if book.status == "" then "unread" else book.status
      match insertErr with
      | some e => ({ status := 500, body := "failed to register book: " ++ e }, books, true)
      | none =>
        ({ status := 201, body := "Book registered successfully" },
         books ++ [{ bookId := newId, userId := book.userId, title := book.title,
                     author := book.author, deadline := book.deadline, status := st,
                     insultLevel := book.insultLevel, createdAt := now,
                     updatedAt := now }],
         true)

/-- `handleUpdateBook`: decode then update rows matching
`book_id = book.BookID AND user_id = book.UserID` with the decoded fields
plus `updated_at := now`; no field validation happens.  Returns (response,
new books table, whether the store update was attempted). -/
def handleUpdateBook (body : Option Book) (updateErr : Option String)
    (now : Nat) (books : List Book) : HttpResponse × List Book × Bool :=
  match body with
  | none => ({ status := 400, body := "Invalid request" }, books, false)
  | some book =>
    match updateErr with
    | some e => ({ status := 500, body := "failed to update book: " ++ e }, books, true)
    | none =>
      ({ status := 200, body := "Book updated successfully" },
       books.map (fun b =>
         if b.bookId == book.bookId && b.userId == book.userId then
           { b with title := book.title, author := book.author,
                    deadline := book.deadline, status := book.status,
                    insultLevel := book.insultLevel, updatedAt := now }
         else b),
       true)

/-- `handleDeleteBook`: decode then delete rows matching
`book_id = req.BookID AND user_id = req.UserID`; no field validation.
Returns (response, new books table, whether the store delete was
attempted). -/
def handleDeleteBook (req : Option DeleteBookRequest) (deleteErr : Option String)
    (books : List Book) : HttpResponse × List Book × Bool :=
  match req with
  | none => ({ status := 400, body := "Invalid request" }, books, false)
  | some r =>
    match deleteErr with
    | some e => ({ status := 500, body := "failed to delete book: " ++ e }, books, true)
    | none =>
      ({ status := 200, body := "Book deleted successfully" },
       books.filter (fun b => !(b.bookId == r.bookId && b.userId == r.userId)),
       true)

/-- `handleCompleteBook`: decode then update rows matching
`book_id = req.BookID` (only) to status "completed" with `updated_at := now`;
no owner id in the request and no field validation.  Returns (response, new
books table, whether the store update was attempted). -/
def handleCompleteBook (req : Option CompleteBookRequest) (updateErr : Option String)
    (now : Nat) (books : List Book) : HttpResponse × List Book × Bool :=
  match req with
  | none => ({ status := 400, body := "Invalid request" }, books, false)
  | some r =>
    match updateErr with
    | some e => ({ status := 500, body := "failed to complete book: " ++ e }, books, true)
    | none =>
      ({ status := 200, body := "Book marked as completed" },
       books.map (fun b =>
         if b.bookId == r.bookId then
           { b with status := "completed", updatedAt := now }
         else b),
       true)

/-- The fixed pool of shaming strings in `generateInsult`; the fourth entry
is formatted with the book's title. -/
def insultMessages (title : String) : List String :=
  ["その本、まだ読んでないんですか？時間の無駄ですね。",
   "積読ですか。残念ですね。その本は二度と読まれないでしょう。",
   "知識は鮮度が命。その本はもう腐っています。",
   "「" ++ title ++ "」を読むというタスクは、あなたの優先順位リストに存在しないようですね。",
   "あなたの本棚、もはや墓場ですね。未完の志が眠る場所。"]

/-- `generateInsult`: pick `insultMessages[randomIndex]` where the Go code
draws `randomIndex` uniformly from `rand.Intn(len)`; the draw is passed in
as an oracle value and reduced modulo the pool size. -/
def generateInsult (book : Book) (randomIndex : Nat) : String :=
  let msgs := insultMessages book.title
  msgs.getD (randomIndex % msgs.length) ""

/-- The sweep's selection predicate: the store query
`In("status", ["unread","insulted"]).Lt("deadline", now)`. -/
def overduePred (now : Nat) (b : Book) : Bool :=
  (b.status == "unread" || b.status == "insulted") && decide (b.deadline < now)

/-- The rows returned by the sweep's books query. -/
def selectOverdue (books : List Book) (now : Nat) : List Book :=
  books.filter (overduePred now)

/-- The store update issued by the sweep for one book:
`Update({"status": "insulted"}).Eq("book_id", bid)`. -/
def applyInsultUpdate (books : List Book) (bid : String) : List Book :=
  books.map (fun b => if b.bookId == bid then { b with status := "insulted" } else b)

/-- The state threaded through the sweep loop: the books table, the notified
count, and the list of (line user id, message) delivery attempts. -/
structure SweepState where
  books : List Book
  count : Nat
  sent : List (String × String)
deriving Repr, DecidableEq

/-- One iteration of the `handleCheckDeadlines` loop body for `book`:
generate an insult, look up the owner's `line_user_id` (the `lookupErr`
oracle models the store call failing), attempt delivery (`sendErr` oracle),
and on success issue the status update (whose own failure, `updateErr`, is
ignored by the Go code) and increment the count. -/
def sweepStep (users : List User) (lookupErr : Book → Bool)
    (sendErr : String → String → Bool) (updateErr : String → Bool)
    (randIdx : Book → Nat) (acc : SweepState) (book : Book) : SweepState :=
  let insultMsg := generateInsult book (randIdx book)
  if lookupErr book then acc
  else
    match users.filter (fun u => u.id == book.userId) with
    | [] => acc
    | u :: _ =>
      if sendErr u.lineUserId insultMsg then
        { acc with sent := acc.sent ++ [(u.lineUserId, insultMsg)] }
      else
        { books := if updateErr book.bookId then acc.books
                   else applyInsultUpdate acc.books book.bookId,
          count := acc.count + 1,
          sent := acc.sent ++ [(u.lineUserId, insultMsg)] }

/-- The sweep proper: fold the loop body over the selected books (the loop
iterates over the snapshot returned by the initial query). -/
def runSweep (users : List User) (lookupErr : Book → Bool)
    (sendErr : String → String → Bool) (updateErr : String → Bool)
    (randIdx : Book → Nat) (books : List Book) (now : Nat) : SweepState :=
  (selectOverdue books now).foldl
    (sweepStep users lookupErr sendErr updateErr randIdx)
    { books := books, count := 0, sent := [] }

/-- The outcome of one call to the cron endpoint: the HTTP response, the
final books table, the delivery attempts, the notified count, and whether
the books query was attempted at all. -/
structure CronResult where
  response : HttpResponse
  books : List Book
  sent : List (String × String)
  count : Nat
  queried : Bool
deriving Repr, DecidableEq

/-- `handleCheckDeadlines`: when `CRON_SECRET` is configured and the
`Authorization` header is not `Bearer <secret>`, answer 401 and stop; then
query the overdue books (`queryErr` models that call failing with a 500
`database error: ...` response); then run the sweep loop and answer with the
count. -/
def handleCheckDeadlines (cronSecret authHeader : String)
    (queryErr : Option String) (users : List User) (lookupErr : Book → Bool)
    (sendErr : String → String → Bool) (updateErr : String → Bool)
    (randIdx : Book → Nat) (books : List Book) (now : Nat) : CronResult :=
  if cronSecret != "" && authHeader != "Bearer " ++ cronSecret then
    { response := { status := 401, body := "Unauthorized" },
      books := books, sent := [], count := 0, queried := false }
  else
    match queryErr with
    | some e =>
      { response := { status := 500, body := "database error: " ++ e },
        books := books, sent := [], count := 0, queried := true }
    | none =>
      let res := runSweep users lookupErr sendErr updateErr randIdx books now
      let msg := "Checked deadlines. Found " ++ toString res.count ++ " expired books."
      { response := { status := 200, body := msg },
        books := res.books, sent := res.sent, count := res.count, queried := true }

/-- Whether the loop body for `book` reaches a successful delivery: the
owner lookup succeeds, it returns at least one row, and the messaging call
succeeds on that row's `line_user_id` and the generated message. -/
def deliveredOk (users : List User) (lookupErr : Book → Bool)
    (sendErr : String → String → Bool) (randIdx : Book → Nat) (book : Book) : Bool :=
  !lookupErr book &&
    (match users.filter (fun u => u.id == book.userId) with
     | [] => false
     | u :: _ => !sendErr u.lineUserId (generateInsult book (randIdx book)))

/-- Concrete sample rows used by the witness theorems below. -/
def bkUnread : Book :=
  { bookId := "b1", userId := "u1", title := "Dune", author := "Herbert",
    deadline := 5, status := "unread", insultLevel := 3, createdAt := 0, updatedAt := 0 }

/-- A concrete completed book. -/
def bkCompleted : Book :=
  { bookId := "b2", userId := "u1", title := "Emma", author := "Austen",
    deadline := 0, status := "completed", insultLevel := 3, createdAt := 0, updatedAt := 0 }

/-- A concrete unread book owned by a second user but sharing no id with the
others. -/
def bkOtherOwner : Book :=
  { bookId := "b3", userId := "u2", title := "Ilias", author := "Homer",
    deadline := 5, status := "unread", insultLevel := 2, createdAt := 0, updatedAt := 0 }

/-- A concrete user row. -/
def sampleUser : User := { id := "u1", displayName := "D", lineUserId := "L1" }

/-- Claim C1: the deadline sweep selects exactly the books whose status is
`unread` or `insulted` and whose deadline is strictly before now; books with
status `completed` or `reading`, or with `deadline >= now`, are never
selected. -/
theorem selectOverdue_spec (books : List Book) (now : Nat) :
    (∀ b, b ∈ selectOverdue books now ↔
      (b ∈ books ∧ (b.status = "unread" ∨ b.status = "insulted") ∧ b.deadline < now)) ∧
    (∀ b ∈ books, (b.status = "completed" ∨ b.status = "reading" ∨ now ≤ b.deadline) →
      b ∉ selectOverdue books now) := by
  have hmem : ∀ b, b ∈ selectOverdue books now ↔
      (b ∈ books ∧ (b.status = "unread" ∨ b.status = "insulted") ∧ b.deadline < now) := by
    intro b
    simp [selectOverdue, overduePred, List.mem_filter, Bool.and_eq_true,
      Bool.or_eq_true, beq_iff_eq, decide_eq_true_eq]
  refine ⟨hmem, ?_⟩
  intro b _ h hsel
  rcases (hmem b).1 hsel with ⟨_, hst, hdl⟩
  rcases h with h | h | h
  · rw [h] at hst
    rcases hst with h2 | h2 <;> exact absurd h2 (by decide)
  · rw [h] at hst
    rcases hst with h2 | h2 <;> exact absurd h2 (by decide)
  · omega

/-- Witness for C1: a concrete completed book is not selected. -/
theorem selectOverdue_spec_witness :
    bkCompleted ∉ selectOverdue [bkCompleted] 10 :=
  (selectOverdue_spec [bkCompleted] 10).2 bkCompleted (by simp)
    (Or.inl rfl)

/-- Claim C3: when a cron secret is configured and the request does not carry
the matching bearer credential, the endpoint answers 401 and no sweep runs:
the books query is not attempted, no message delivery is attempted, the count
is zero and the books table is unchanged. -/
theorem checkDeadlines_unauthorized (cronSecret authHeader : String)
    (queryErr : Option String) (users : List User) (lookupErr : Book → Bool)
    (sendErr : String → String → Bool) (updateErr : String → Bool)
    (randIdx : Book → Nat) (books : List Book) (now : Nat)
    (hsec : cronSecret ≠ "") (hauth : authHeader ≠ "Bearer " ++ cronSecret) :
    handleCheckDeadlines cronSecret authHeader queryErr users lookupErr sendErr
        updateErr randIdx books now =
      { response := { status := 401, body := "Unauthorized" },
        books := books, sent := [], count := 0, queried := false } := by
  simp [handleCheckDeadlines, hsec, hauth]

/-- Witness for C3 at a concrete secret, header and store. -/
theorem checkDeadlines_unauthorized_witness :
    handleCheckDeadlines "s3cret" "" none [sampleUser] (fun _ => false)
        (fun _ _ => false) (fun _ => false) (fun _ => 0) [bkUnread] 7 =
      { response := { status := 401, body := "Unauthorized" },
        books := [bkUnread], sent := [], count := 0, queried := false } :=
  checkDeadlines_unauthorized "s3cret" "" none [sampleUser] (fun _ => false)
    (fun _ _ => false) (fun _ => false) (fun _ => 0) [bkUnread] 7
    (by decide) (by decide)

/-- Claim C4: a create-book request whose title, author or owning user id is
empty is rejected with a 400 response, the books table is unchanged, and the
store insert is never attempted. -/
theorem registerBook_missing_fields (book : Book) (insertErr : Option String)
    (newId : String) (now : Nat) (books : List Book)
    (h : book.title = "" ∨ book.author = "" ∨ book.userId = "") :
    handleRegisterBook (some book) insertErr newId now books =
      ({ status := 400, body := "Missing required fields" }, books, false) := by
  have hc : (book.title == "" || book.author == "" || book.userId == "") = true := by
    rcases h with h | h | h <;> simp [h]
  simp [handleRegisterBook, hc]

/-- Witness for C4 at a concrete request with an empty title. -/
theorem registerBook_missing_fields_witness :
    handleRegisterBook (some { bkUnread with title := "" }) none "b9" 3 [bkCompleted] =
      ({ status := 400, body := "Missing required fields" }, [bkCompleted], false) :=
  registerBook_missing_fields { bkUnread with title := "" } none "b9" 3 [bkCompleted]
    (Or.inl rfl)

/-- Claim C6: a delete-book request whose owner id differs from a book's
actual owner leaves that book's row untouched: the row (with all its fields)
is still present, with the same multiplicity as before. -/
theorem deleteBook_other_owner (r : DeleteBookRequest) (books : List Book) (b : Book)
    (hmem : b ∈ books) (howner : b.userId ≠ r.userId) :
    b ∈ (handleDeleteBook (some r) none books).2.1 ∧
      (handleDeleteBook (some r) none books).2.1.count b = books.count b := by
  have hu : (b.userId == r.userId) = false := by
    simp [howner]
  have hp : (!(b.bookId == r.bookId && b.userId == r.userId)) = true := by
    simp [hu]
  refine ⟨?_, ?_⟩
  · simp only [handleDeleteBook]
    exact List.mem_filter.2 ⟨hmem, hp⟩
  · simp only [handleDeleteBook]
    exact List.count_filter hp

/-- Witness for C6: deleting book id "b1" scoped to owner "u9" leaves the
row of "b1" (owned by "u1") in place. -/
theorem deleteBook_other_owner_witness :
    bkUnread ∈ (handleDeleteBook (some { bookId := "b1", userId := "u9" }) none
        [bkUnread, bkCompleted]).2.1 ∧
      (handleDeleteBook (some { bookId := "b1", userId := "u9" }) none
        [bkUnread, bkCompleted]).2.1.count bkUnread =
        ([bkUnread, bkCompleted] : List Book).count bkUnread :=
  deleteBook_other_owner { bookId := "b1", userId := "u9" } [bkUnread, bkCompleted]
    bkUnread (by simp) (by decide)

/-- Claim C9: marking a book completed is scoped by book id only: every row
with the requested id is set to status "completed" no matter which user owns
it (the request type `CompleteBookRequest` carries no owner id at all), and
rows with a different id are untouched. -/
theorem completeBook_scoped_by_id_only (r : CompleteBookRequest) (now : Nat)
    (books : List Book) :
    ∀ b ∈ books,
      (b.bookId = r.bookId →
        { b with status := "completed", updatedAt := now } ∈
          (handleCompleteBook (some r) none now books).2.1) ∧
      (b.bookId ≠ r.bookId → b ∈ (handleCompleteBook (some r) none now books).2.1) := by
  intro b hb
  constructor
  · intro hid
    simp only [handleCompleteBook]
    refine List.mem_map.2 ⟨b, hb, ?_⟩
    simp [hid]
  · intro hid
    simp only [handleCompleteBook]
    refine List.mem_map.2 ⟨b, hb, ?_⟩
    simp [hid]

/-- Witness for C9: completing id "b1" also completes the copy of "b1" owned
by a different user ("u2"), with no owner in the request. -/
theorem completeBook_scoped_by_id_only_witness :
    { bkOtherOwner with bookId := "b1", status := "completed", updatedAt := 9 } ∈
      (handleCompleteBook (some { bookId := "b1" }) none 9
        [bkUnread, { bkOtherOwner with bookId := "b1" }]).2.1 :=
  (completeBook_scoped_by_id_only { bookId := "b1" } 9
      [bkUnread, { bkOtherOwner with bookId := "b1" }]
      { bkOtherOwner with bookId := "b1" } (by simp)).1 rfl

/-- One loop iteration adds one to the count exactly when it reaches a
successful delivery, regardless of whether the follow-up status update
succeeds. -/
theorem sweepStep_count (users : List User) (lookupErr : Book → Bool)
    (sendErr : String → String → Bool) (updateErr : String → Bool)
    (randIdx : Book → Nat) (acc : SweepState) (book : Book) :
    (sweepStep users lookupErr sendErr updateErr randIdx acc book).count =
      acc.count +
        (if deliveredOk users lookupErr sendErr randIdx book then 1 else 0) := by
  cases hl : lookupErr book with
  | true => simp [sweepStep, deliveredOk, hl]
  | false =>
    cases hf : users.filter (fun u => u.id == book.userId) with
    | nil => simp [sweepStep, deliveredOk, hl, hf]
    | cons u rest =>
      cases hs : sendErr u.lineUserId (generateInsult book (randIdx book)) with
      | true => simp [sweepStep, deliveredOk, hl, hf, hs]
      | false => simp [sweepStep, deliveredOk, hl, hf, hs]

/-- Folding the loop body accumulates one count per delivered book. -/
theorem foldl_sweepStep_count (users : List User) (lookupErr : Book → Bool)
    (sendErr : String → String → Bool) (updateErr : String → Bool)
    (randIdx : Book → Nat) (l : List Book) (acc : SweepState) :
    (l.foldl (sweepStep users lookupErr sendErr updateErr randIdx) acc).count =
      acc.count + (l.filter (deliveredOk users lookupErr sendErr randIdx)).length := by
  induction l generalizing acc with
  | nil => simp
  | cons b t ih =>
    simp only [List.foldl_cons, List.filter_cons]
    rw [ih, sweepStep_count]
    cases h : deliveredOk users lookupErr sendErr randIdx b with
    | false => simp [h]
    | true =>
      simp [h]
      omega

/-- Claim C10: the sweep's count is exactly the number of selected books
whose message delivery succeeded; it does not depend on the `updateErr`
oracle, i.e. the count is incremented even when the follow-up status-update
store call fails (the Go code discards that call's results). -/
theorem sweep_count_is_delivery_count (users : List User) (lookupErr : Book → Bool)
    (sendErr : String → String → Bool) (updateErr : String → Bool)
    (randIdx : Book → Nat) (books : List Book) (now : Nat) :
    (runSweep users lookupErr sendErr updateErr randIdx books now).count =
      ((selectOverdue books now).filter
        (deliveredOk users lookupErr sendErr randIdx)).length := by
  simp [runSweep, foldl_sweepStep_count]

/-- One loop iteration updates the books table exactly when it reaches a
successful delivery and the (silently ignored) status update succeeds. -/
theorem sweepStep_books (users : List User) (lookupErr : Book → Bool)
    (sendErr : String → String → Bool) (updateErr : String → Bool)
    (randIdx : Book → Nat) (acc : SweepState) (book : Book) :
    (sweepStep users lookupErr sendErr updateErr randIdx acc book).books =
      if deliveredOk users lookupErr sendErr randIdx book && !updateErr book.bookId then
        applyInsultUpdate acc.books book.bookId
      else acc.books := by
  cases hl : lookupErr book with
  | true => simp [sweepStep, deliveredOk, hl]
  | false =>
    cases hf : users.filter (fun u => u.id == book.userId) with
    | nil => simp [sweepStep, deliveredOk, hl, hf]
    | cons u rest =>
      cases hs : sendErr u.lineUserId (generateInsult book (randIdx book)) with
      | true => simp [sweepStep, deliveredOk, hl, hf, hs]
      | false =>
        cases hu : updateErr book.bookId with
        | true => simp [sweepStep, deliveredOk, hl, hf, hs, hu]
        | false => simp [sweepStep, deliveredOk, hl, hf, hs, hu]

/-- Folding the loop body applies the insult update for every delivered book
whose status update succeeded. -/
theorem foldl_sweepStep_books (users : List User) (lookupErr : Book → Bool)
    (sendErr : String → String → Bool) (updateErr : String → Bool)
    (randIdx : Book → Nat) (l : List Book) (acc : SweepState) :
    (l.foldl (sweepStep users lookupErr sendErr updateErr randIdx) acc).books =
      (l.filter (fun b => deliveredOk users lookupErr sendErr randIdx b &&
          !updateErr b.bookId)).foldl
        (fun bs s => applyInsultUpdate bs s.bookId) acc.books := by
  induction l generalizing acc with
  | nil => simp
  | cons b t ih =>
    simp only [List.foldl_cons, List.filter_cons]
    rw [ih, sweepStep_books]
    cases h : (deliveredOk users lookupErr sendErr randIdx b && !updateErr b.bookId) <;>
      simp [h]

/-- Setting the status of a row does not change its id. -/
theorem insult_set_bookId (b : Book) :
    ({ b with status := "insulted" } : Book).bookId = b.bookId := rfl

/-- Setting the status to "insulted" twice is the same as setting it once. -/
theorem insult_set_twice (b : Book) :
    ({ ({ b with status := "insulted" } : Book) with status := "insulted" } : Book) =
      { b with status := "insulted" } := rfl

/-- A chain of per-id insult updates acts pointwise: a row is insulted
exactly when some book in the chain carries its id. -/
theorem foldl_applyInsultUpdate (l : List Book) (books : List Book) :
    l.foldl (fun bs s => applyInsultUpdate bs s.bookId) books =
      books.map (fun b =>
        if l.any (fun s => b.bookId == s.bookId) then { b with status := "insulted" }
        else b) := by
  induction l generalizing books with
  | nil => simp
  | cons s t ih =>
    simp only [List.foldl_cons]
    rw [ih]
    simp only [applyInsultUpdate, List.map_map]
    apply List.map_congr_left
    intro b _
    simp only [Function.comp]
    cases h : (b.bookId == s.bookId) with
    | false => simp [h]
    | true =>
      cases h2 : t.any (fun s2 => b.bookId == s2.bookId) with
      | false => simp [h, h2, insult_set_bookId, insult_set_twice]
      | true => simp [h, h2, insult_set_bookId, insult_set_twice]

/-- Under the primary-key invariant (distinct book ids), the sweep maps the
books table pointwise: a row becomes "insulted" exactly when it was selected,
its delivery succeeded, and its status update succeeded; otherwise it is
unchanged. -/
theorem runSweep_books_general (users : List User) (lookupErr : Book → Bool)
    (sendErr : String → String → Bool) (updateErr : String → Bool)
    (randIdx : Book → Nat) (books : List Book) (now : Nat)
    (hids : (books.map Book.bookId).Nodup) :
    (runSweep users lookupErr sendErr updateErr randIdx books now).books =
      books.map (fun b =>
        if overduePred now b && (deliveredOk users lookupErr sendErr randIdx b &&
            !updateErr b.bookId) then
          { b with status := "insulted" }
        else b) := by
  rw [runSweep, foldl_sweepStep_books, foldl_applyInsultUpdate]
  apply List.map_congr_left
  intro b hb
  have hcond : ((selectOverdue books now).filter
      (fun s => deliveredOk users lookupErr sendErr randIdx s && !updateErr s.bookId)).any
        (fun s => b.bookId == s.bookId) =
      (overduePred now b && (deliveredOk users lookupErr sendErr randIdx b &&
        !updateErr b.bookId)) := by
    apply Bool.eq_iff_iff.2
    constructor
    · intro h
      rcases List.any_eq_true.1 h with ⟨s, hs, hsb⟩
      rcases List.mem_filter.1 hs with ⟨hsel, hcs⟩
      rcases List.mem_filter.1 hsel with ⟨hsbooks, hov⟩
      have hsb2 : b = s :=
        List.inj_on_of_nodup_map hids hb hsbooks (beq_iff_eq.1 hsb)
      subst hsb2
      simp [hov, hcs]
    · intro h
      rw [Bool.and_eq_true] at h
      exact List.any_eq_true.2
        ⟨b, List.mem_filter.2 ⟨List.mem_filter.2 ⟨hb, h.1⟩, h.2⟩, by simp⟩
  rw [hcond]

/-- Claim C2: with distinct book ids and a store that accepts the sweep's
updates, every selected book is transitioned to "insulted" exactly when its
message delivery succeeds, and is left unchanged on owner-lookup or delivery
failure; books not selected are unchanged; moreover, whatever the update
oracle does, every row after a sweep either has status "insulted" or is an
unchanged original row — no other status is ever written. -/
theorem sweep_status_transitions (users : List User) (lookupErr : Book → Bool)
    (sendErr : String → String → Bool) (updateErr : String → Bool)
    (randIdx : Book → Nat) (books : List Book) (now : Nat)
    (hids : (books.map Book.bookId).Nodup)
    (hupd : ∀ bid, updateErr bid = false) :
    ((runSweep users lookupErr sendErr updateErr randIdx books now).books =
      books.map (fun b =>
        if overduePred now b && deliveredOk users lookupErr sendErr randIdx b then
          { b with status := "insulted" }
        else b)) ∧
    (∀ updErr2 : String → Bool,
      ∀ b2 ∈ (runSweep users lookupErr sendErr updErr2 randIdx books now).books,
        b2.status = "insulted" ∨ b2 ∈ books) := by
  constructor
  · rw [runSweep_books_general users lookupErr sendErr updateErr randIdx books now hids]
    apply List.map_congr_left
    intro b _
    rw [hupd b.bookId]
    simp
  · intro updErr2 b2 hb2
    rw [runSweep_books_general users lookupErr sendErr updErr2 randIdx books now hids] at hb2
    rcases List.mem_map.1 hb2 with ⟨b, hb, heq⟩
    by_cases h : (overduePred now b && (deliveredOk users lookupErr sendErr randIdx b &&
        !updErr2 b.bookId)) = true
    · left
      rw [← heq]
      simp [h]
    · right
      rw [← heq, if_neg h]
      exact hb

/-- Witness for C2 at a concrete store (one overdue and one completed book,
all collaborator calls succeeding): the overdue book is insulted, the
completed one untouched. -/
theorem sweep_status_transitions_witness :
    ((runSweep [sampleUser] (fun _ => false) (fun _ _ => false) (fun _ => false)
        (fun _ => 0) [bkUnread, bkCompleted] 10).books =
      ([bkUnread, bkCompleted] : List Book).map (fun b =>
        if overduePred 10 b && deliveredOk [sampleUser] (fun _ => false)
            (fun _ _ => false) (fun _ => 0) b then
          { b with status := "insulted" }
        else b)) ∧
    (∀ updErr2 : String → Bool,
      ∀ b2 ∈ (runSweep [sampleUser] (fun _ => false) (fun _ _ => false) updErr2
          (fun _ => 0) [bkUnread, bkCompleted] 10).books,
        b2.status = "insulted" ∨ b2 ∈ ([bkUnread, bkCompleted] : List Book)) :=
  sweep_status_transitions [sampleUser] (fun _ => false) (fun _ _ => false)
    (fun _ => false) (fun _ => 0) [bkUnread, bkCompleted] 10 (by decide)
    (fun _ => rfl)

/-- On a successful query returning zero rows, auth-bootstrap inserts one
new user row for the external id. -/
theorem handleLineAuth_notfound (r : LineAuthRequest) (newId : String)
    (users : List User)
    (h : (users.filter (fun u => u.lineUserId == r.lineUserID)).length = 0) :
    handleLineAuth (some r) none none newId users =
      ({ status := 200, body := "Auth pre-check successful" },
       users ++ [{ id := newId, displayName := "LINE User",
                   lineUserId := r.lineUserID }]) := by
  have hc : ((users.filter (fun u => u.lineUserId == r.lineUserID)).length == 0) = true := by
    simp [h]
  simp only [handleLineAuth, hc, if_true]

theorem handleLineAuth_found (r : LineAuthRequest) (newId : String)
    (users : List User)
    (h : (users.filter (fun u => u.lineUserId == r.lineUserID)).length ≠ 0) :
    handleLineAuth (some r) none none newId users =
      ({ status := 200, body := "Auth pre-check successful" }, users) := by
  have hc : ((users.filter (fun u => u.lineUserId == r.lineUserID)).length == 0) = false := by
    simpa using h
  simp only [handleLineAuth, hc, Bool.false_eq_true, if_false]

/-- Claim C5: auth-bootstrap is idempotent.  Starting from a users table
satisfying the schema's UNIQUE constraint on `line_user_id` (at most one row
with the given external id), two successive calls with the same external id
leave exactly one row with that id. -/
theorem lineAuth_idempotent (r : LineAuthRequest) (id1 id2 : String)
    (users : List User)
    (huniq : (users.filter (fun u => u.lineUserId == r.lineUserID)).length ≤ 1) :
    (((handleLineAuth (some r) none none id2
        (handleLineAuth (some r) none none id1 users).2).2).filter
      (fun u => u.lineUserId == r.lineUserID)).length = 1 := by
  by_cases h0 : (users.filter (fun u => u.lineUserId == r.lineUserID)).length = 0
  · have h1 : (handleLineAuth (some r) none none id1 users).2 =
        users ++ [{ id := id1, displayName := "LINE User",
                    lineUserId := r.lineUserID }] := by
      rw [handleLineAuth_notfound r id1 users h0]
    have hlen : (((handleLineAuth (some r) none none id1 users).2).filter
        (fun u => u.lineUserId == r.lineUserID)).length = 1 := by
      rw [h1, List.filter_append]
      simp [h0]
    have h2 : (handleLineAuth (some r) none none id2
        (handleLineAuth (some r) none none id1 users).2).2 =
        (handleLineAuth (some r) none none id1 users).2 := by
      rw [handleLineAuth_found r id2 _ (by omega)]
    rw [h2, hlen]
  · have hlen : (users.filter (fun u => u.lineUserId == r.lineUserID)).length = 1 := by
      omega
    have h1 : (handleLineAuth (some r) none none id1 users).2 = users := by
      rw [handleLineAuth_found r id1 users h0]
    rw [h1]
    have h2 : (handleLineAuth (some r) none none id2 users).2 = users := by
      rw [handleLineAuth_found r id2 users h0]
    rw [h2, hlen]

/-- Witness for C5: two bootstrap calls for external id "U1" on an empty
users table leave exactly one row with that id. -/
theorem lineAuth_idempotent_witness :
    (((handleLineAuth (some { lineAccessToken := "tok", lineUserID := "U1" }) none none
        "id2" (handleLineAuth (some { lineAccessToken := "tok", lineUserID := "U1" })
          none none "id1" []).2).2).filter
      (fun u => u.lineUserId ==
        ({ lineAccessToken := "tok", lineUserID := "U1" } : LineAuthRequest).lineUserID)).length = 1 :=
  lineAuth_idempotent { lineAccessToken := "tok", lineUserID := "U1" } "id1" "id2" []
    (by decide)

/-- Counterexample to C7: the 500 response body is not a generic message —
it embeds the underlying store error text.  At a concrete failed insert the
body is literally "failed to register book: connection refused", and two
different underlying causes produce two different response bodies. -/
theorem storeError_surfaced_counterexample :
    (handleRegisterBook (some bkUnread) (some "connection refused") "b9" 0 []).1 =
      { status := 500, body := "failed to register book: connection refused" } ∧
    (handleRegisterBook (some bkUnread) (some "connection refused") "b9" 0 []).1.body ≠
      (handleRegisterBook (some bkUnread) (some "disk full") "b9" 0 []).1.body := by
  refine ⟨by decide, by decide⟩

/-- Claim C7 (amended): when the store call fails, every handler answers
with a server error (500) whose body embeds the underlying cause after a
per-handler prefix; the cause is surfaced in the HTTP response body rather
than replaced by a generic message (and only the auth and list handlers log
it). -/
theorem storeError_responses (e : String) (users : List User) (books : List Book)
    (r : LineAuthRequest) (b : Book) (dr : DeleteBookRequest)
    (cr : CompleteBookRequest) (uid newId authHdr : String) (now : Nat)
    (lookupErr : Book → Bool) (sendErr : String → String → Bool)
    (updateErr : String → Bool) (randIdx : Book → Nat)
    (hb : (b.title == "" || b.author == "" || b.userId == "") = false)
    (huid : uid ≠ "") :
    (handleLineAuth (some r) (some e) none newId users).1 =
      { status := 500, body := "failed to query user: " ++ e } ∧
    (handleGetBooks uid (some e) books).1 =
      { status := 500, body := "failed to fetch books: " ++ e } ∧
    (handleRegisterBook (some b) (some e) newId now books).1 =
      { status := 500, body := "failed to register book: " ++ e } ∧
    (handleUpdateBook (some b) (some e) now books).1 =
      { status := 500, body := "failed to update book: " ++ e } ∧
    (handleDeleteBook (some dr) (some e) books).1 =
      { status := 500, body := "failed to delete book: " ++ e } ∧
    (handleCompleteBook (some cr) (some e) now books).1 =
      { status := 500, body := "failed to complete book: " ++ e } ∧
    (handleCheckDeadlines "" authHdr (some e) users lookupErr sendErr updateErr
        randIdx books now).response =
      { status := 500, body := "database error: " ++ e } := by
  have hu : (uid == "") = false := by
    simpa using huid
  refine ⟨rfl, ?_, ?_, rfl, rfl, rfl, ?_⟩
  · simp [handleGetBooks, hu]
  · simp [handleRegisterBook, hb]
  · simp [handleCheckDeadlines]

/-- Witness for the amended C7 at a concrete error and concrete requests. -/
theorem storeError_responses_witness :
    (handleLineAuth (some { lineAccessToken := "tok", lineUserID := "U1" })
        (some "boom") none "n" [sampleUser]).1 =
      { status := 500, body := "failed to query user: " ++ "boom" } ∧
    (handleGetBooks "u1" (some "boom") [bkUnread]).1 =
      { status := 500, body := "failed to fetch books: " ++ "boom" } ∧
    (handleRegisterBook (some bkUnread) (some "boom") "n" 0 [bkUnread]).1 =
      { status := 500, body := "failed to register book: " ++ "boom" } ∧
    (handleUpdateBook (some bkUnread) (some "boom") 0 [bkUnread]).1 =
      { status := 500, body := "failed to update book: " ++ "boom" } ∧
    (handleDeleteBook (some { bookId := "b1", userId := "u1" }) (some "boom")
        [bkUnread]).1 =
      { status := 500, body := "failed to delete book: " ++ "boom" } ∧
    (handleCompleteBook (some { bookId := "b1" }) (some "boom") 0 [bkUnread]).1 =
      { status := 500, body := "failed to complete book: " ++ "boom" } ∧
    (handleCheckDeadlines "" "" (some "boom") [sampleUser] (fun _ => false)
        (fun _ _ => false) (fun _ => false) (fun _ => 0) [bkUnread] 7).response =
      { status := 500, body := "database error: " ++ "boom" } :=
  storeError_responses "boom" [sampleUser] [bkUnread]
    { lineAccessToken := "tok", lineUserID := "U1" } bkUnread
    { bookId := "b1", userId := "u1" } { bookId := "b1" } "u1" "n" "" 0
    (fun _ => false) (fun _ _ => false) (fun _ => false) (fun _ => 0)
    (by decide) (by decide)

/-- A request body whose required fields are all empty. -/
def emptyBook : Book :=
  { bookId := "", userId := "", title := "", author := "", deadline := 0,
    status := "", insultLevel := 0, createdAt := 0, updatedAt := 0 }

/-- Counterexample to C8: not every handler validates required fields.  An
update request whose book id, owner id, title and author are all empty is
not rejected: the store update is attempted and the response is 200; the
same holds for a complete request with an empty book id and a delete request
with empty ids. -/
theorem validation_counterexample :
    (handleUpdateBook (some emptyBook) none 7 []).2.2 = true ∧
    (handleUpdateBook (some emptyBook) none 7 []).1.status = 200 ∧
    (handleCompleteBook (some { bookId := "" }) none 7 []).2.2 = true ∧
    (handleCompleteBook (some { bookId := "" }) none 7 []).1.status = 200 ∧
    (handleDeleteBook (some { bookId := "", userId := "" }) none []).2.2 = true ∧
    (handleDeleteBook (some { bookId := "", userId := "" }) none []).1.status = 200 := by
  refine ⟨rfl, rfl, rfl, rfl, rfl, rfl⟩

/-- Claim C8 (amended): only the list and create handlers validate required
fields before calling the store (rejecting with 400 and never attempting the
store call); the update, complete and delete handlers attempt their store
call for every decoded request body, with no field validation at all. -/
theorem validation_by_handler (books : List Book) (b : Book) (bu : Book)
    (dr : DeleteBookRequest) (cr : CompleteBookRequest) (newId : String) (now : Nat)
    (h : b.title = "" ∨ b.author = "" ∨ b.userId = "") :
    (handleRegisterBook (some b) none newId now books =
      ({ status := 400, body := "Missing required fields" }, books, false)) ∧
    (handleGetBooks "" none books =
      ({ status := 400, body := "userId required" }, [], false)) ∧
    ((handleUpdateBook (some bu) none now books).2.2 = true) ∧
    ((handleCompleteBook (some cr) none now books).2.2 = true) ∧
    ((handleDeleteBook (some dr) none books).2.2 = true) := by
  have hc : (b.title == "" || b.author == "" || b.userId == "") = true := by
    rcases h with h | h | h <;> simp [h]
  exact ⟨by simp [handleRegisterBook, hc], rfl, rfl, rfl, rfl⟩

/-- Witness for the amended C8 at concrete requests. -/
theorem validation_by_handler_witness :
    (handleRegisterBook (some { bkUnread with author := "" }) none "n" 3 [bkCompleted] =
      ({ status := 400, body := "Missing required fields" }, [bkCompleted], false)) ∧
    (handleGetBooks "" none [bkCompleted] =
      ({ status := 400, body := "userId required" }, [], false)) ∧
    ((handleUpdateBook (some emptyBook) none 3 [bkCompleted]).2.2 = true) ∧
    ((handleCompleteBook (some { bookId := "" }) none 3 [bkCompleted]).2.2 = true) ∧
    ((handleDeleteBook (some { bookId := "", userId := "" }) none [bkCompleted]).2.2 = true) :=
  validation_by_handler [bkCompleted] { bkUnread with author := "" } emptyBook
    { bookId := "", userId := "" } { bookId := "" } "n" 3 (Or.inr (Or.inl rfl))

end Tundoku
